import Mathlib

/-!
Shallow embedding of the core logic of `src/poker_payout_calculator.py`
(the Pay2Poker repository): the payout/pool calculation engine
(`calculate_payouts`), the player-payment ledger (`update_player_data`,
`on_checkbox_change`, `on_all_checkbox_change`, `update_pool_summary`)
and the weight-set operations (`on_weight_change`, `remove_position`,
`add_position`, `reset`).

Modelling conventions:
- Python floats are embedded as exact rationals (`ℚ`).
- The player count comes from a tkinter IntVar, so it is an integer (`ℤ`).
  Python's floor division `//` with the positive literal divisor 3 agrees
  with Lean's Euclidean division `/` on `ℤ` (for a positive divisor,
  Euclidean and floor division coincide), so `num_players // 3` is
  embedded as `num_players / 3`.
- The weight list holds Python ints that every code path keeps positive
  (defaults are positive, `on_weight_change` only commits values > 0,
  `add_position` appends 1), so it is embedded as `List ℕ`.
- The GUI display calls are side effects outside the data model; each
  handler is embedded as the function from its data inputs to the data
  it computes/stores.
-/

namespace Pay2Poker

/-- Default payout weights: `self.default_weights = [35, 20, 15, 10, 8, 6, 3, 2, 1]`
(line 39 of the source). -/
def default_weights : List ℕ := [35, 20, 15, 10, 8, 6, 3, 2, 1]

/-- The data computed by `calculate_payouts` (lines 713-755): the four pool
totals and the per-position payout list (position i of `payouts` is the
payout displayed by `create_payout_row(position + 1, payout, weight)`). -/
structure PayoutResult where
  prize_pool : ℚ
  food_pool : ℚ
  bounty_pool : ℚ
  total_pool : ℚ
  payouts : List ℚ
deriving Repr, DecidableEq

/-- Line 733 of the source:
`max_paying_positions = min(max(1, num_players // 3), len(self.current_weights))`.
Python `//` by the positive constant 3 is embedded as Euclidean `/` on `ℤ`.
The result is a list length, hence `ℕ` via `Int.toNat` (the integer value is
always ≥ 0 because `len` is ≥ 0). -/
def max_paying_positions (num_players : ℤ) (current_weights : List ℕ) : ℕ :=
  (min (max 1 (num_players / 3)) (current_weights.length : ℤ)).toNat

/-- Lines 713-755 of the source, `calculate_payouts`: pools, paying-position
count, paying weights, total weight with the division-by-zero guard
(`if total_weight == 0: total_weight = 1`), and the per-position payouts
`(weight / total_weight) * prize_pool`.  The body contains no input
validation; the surrounding `try/except` only guards widget operations,
and none of the arithmetic below can raise, so the embedding is a total
function. -/
def calculate_payouts (num_players : ℤ) (buy_in food_per_player bounty_per_player : ℚ)
    (current_weights : List ℕ) : PayoutResult :=
  let prize_pool : ℚ := (num_players : ℚ) * buy_in
  let food_pool : ℚ := (num_players : ℚ) * food_per_player
  let bounty_pool : ℚ := (num_players : ℚ) * bounty_per_player
  let total_pool : ℚ := prize_pool + food_pool + bounty_pool
  let k : ℕ := max_paying_positions num_players current_weights
  let paying_weights : List ℕ := current_weights.take k
  let total_weight : ℕ := paying_weights.sum
  let total_weight : ℚ := if total_weight = 0 then 1 else (total_weight : ℚ)
  { prize_pool := prize_pool
    food_pool := food_pool
    bounty_pool := bounty_pool
    total_pool := total_pool
    payouts := paying_weights.map (fun (weight : ℕ) => ((weight : ℚ) / total_weight) * prize_pool) }

/-- A row of `self.player_data` (lines 369-378): a name plus six boolean
flags (the tkinter `BooleanVar`s hold plain booleans). -/
structure PlayerRecord where
  name : String
  buy_in : Bool
  food : Bool
  bounty : Bool
  all : Bool
  eliminated : Bool
  payed_out : Bool
deriving Repr, DecidableEq

/-- The default record appended for position `i` (0-based) by
`update_player_data` (lines 369-378): name `"Player {i+1}"`, every flag
false. -/
def defaultPlayer (i : ℕ) : PlayerRecord :=
  { name := "Player " ++ toString (i + 1)
    buy_in := false
    food := false
    bounty := false
    all := false
    eliminated := false
    payed_out := false }

/-- The three individual payment checkboxes of a player row. -/
inductive PaymentField where
  | buyIn
  | food
  | bounty
deriving Repr, DecidableEq

/-- The UI toggling one payment checkbox: the corresponding `BooleanVar`
of the record takes the new value (this happens before the checkbox
`command` callback `on_checkbox_change` runs). -/
def setPaymentField (r : PlayerRecord) (f : PaymentField) (v : Bool) : PlayerRecord :=
  match f with
  | .buyIn => { r with buy_in := v }
  | .food => { r with food := v }
  | .bounty => { r with bounty := v }

/-- Lines 560-569, `on_checkbox_change`, restricted to its effect on the
indexed record (the `index < len(self.player_data)` guard selects the
record; `update_pool_summary` is a separate display recomputation):
`player['all'].set(player['buy_in'].get() and player['food'].get() and player['bounty'].get())`. -/
def on_checkbox_change (r : PlayerRecord) : PlayerRecord :=
  { r with all := r.buy_in && r.food && r.bounty }

/-- Lines 571-579, `on_all_checkbox_change`, as its effect on the indexed
record: the UI has set `player['all']` to `v`, then the handler copies
`v` into `buy_in`, `food` and `bounty`. -/
def on_all_checkbox_change (r : PlayerRecord) (v : Bool) : PlayerRecord :=
  { r with all := v, buy_in := v, food := v, bounty := v }

/-- The grow loop of `update_player_data` (lines 369-378):
`while len(self.player_data) < num_players: self.player_data.append({...})`. -/
def growPlayers (ps : List PlayerRecord) (num_players : ℕ) : List PlayerRecord :=
  if ps.length < num_players then
    growPlayers (ps ++ [defaultPlayer ps.length]) num_players
  else ps
termination_by num_players - ps.length
decreasing_by simp_all; omega

/-- The shrink loop of `update_player_data` (lines 381-382):
`while len(self.player_data) > num_players: self.player_data.pop()`
(`pop()` removes the last element). -/
def shrinkPlayers (ps : List PlayerRecord) (num_players : ℕ) : List PlayerRecord :=
  if num_players < ps.length then shrinkPlayers ps.dropLast num_players else ps
termination_by ps.length
decreasing_by simp_all [List.length_dropLast]; omega

/-- Lines 364-385, `update_player_data`: the grow loop followed by the
shrink loop, resizing `self.player_data` to `num_players` records. -/
def update_player_data (ps : List PlayerRecord) (num_players : ℕ) : List PlayerRecord :=
  shrinkPlayers (growPlayers ps num_players) num_players

/-- The data computed by `update_pool_summary` (lines 581-631): the pool
total, amount collected, percentage collected, active players and
paid-out count shown in the summary labels. -/
structure PoolSummary where
  total_pool : ℚ
  total_paid : ℚ
  percent_paid : ℚ
  remaining_players : ℤ
  payed_out_count : ℕ
deriving Repr, DecidableEq

/-- Lines 581-631, `update_pool_summary`:
`total_pool = num_players * (buy_in + food_per_player + bounty_per_player)`;
`total_paid` accumulates, per record, each per-player amount whose flag is
set; `percent_paid = (total_paid / total_pool * 100) if total_pool > 0 else 0`;
`remaining_players = num_players - eliminated_count`;
`payed_out_count` counts the `payed_out` flags. -/
def update_pool_summary (num_players : ℤ) (buy_in food_per_player bounty_per_player : ℚ)
    (player_data : List PlayerRecord) : PoolSummary :=
  let total_pool : ℚ := (num_players : ℚ) * (buy_in + food_per_player + bounty_per_player)
  let total_paid : ℚ :=
    (player_data.map (fun p =>
      (if p.buy_in then buy_in else 0) +
      (if p.food then food_per_player else 0) +
      (if p.bounty then bounty_per_player else 0))).sum
  let eliminated_count : ℕ := (player_data.filter (fun p => p.eliminated)).length
  let payed_out_count : ℕ := (player_data.filter (fun p => p.payed_out)).length
  let percent_paid : ℚ := if 0 < total_pool then total_paid / total_pool * 100 else 0
  { total_pool := total_pool
    total_paid := total_paid
    percent_paid := percent_paid
    remaining_players := num_players - (eliminated_count : ℤ)
    payed_out_count := payed_out_count }

/-- Lines 1242-1250, `on_weight_change`: read the entered value; if it is
positive, store it at `index`; otherwise (or on a parse error, which the
`except (ValueError, tk.TclError)` swallows) leave the list untouched.
The entry is an `IntVar`, so the value is an integer; only positive
values are stored, so storing `new_weight.toNat` is exact. -/
def on_weight_change (current_weights : List ℕ) (index : ℕ) (new_weight : ℤ) : List ℕ :=
  if 0 < new_weight then current_weights.set index new_weight.toNat else current_weights

/-- Lines 1258-1263, `remove_position`:
`if len(self.current_weights) > 1: self.current_weights.pop()` — drop the
last element only when more than one remains; otherwise do nothing (no
exception is raised). -/
def remove_position (current_weights : List ℕ) : List ℕ :=
  if 1 < current_weights.length then current_weights.dropLast else current_weights

/-- Lines 1252-1256, `add_position`: `self.current_weights.append(1)`. -/
def add_position (current_weights : List ℕ) : List ℕ :=
  current_weights ++ [1]

/-! ## Helper lemmas -/

/-- For a non-empty weight list the paying-position count is at least 1. -/
lemma one_le_max_paying_positions (num_players : ℤ) (ws : List ℕ) (h : ws ≠ []) :
    1 ≤ max_paying_positions num_players ws := by
  have hL : 0 < ws.length := List.length_pos.mpr h
  unfold max_paying_positions
  omega

/-- The paying-position count never exceeds the number of weights. -/
lemma max_paying_positions_le_length (num_players : ℤ) (ws : List ℕ) :
    max_paying_positions num_players ws ≤ ws.length := by
  unfold max_paying_positions
  omega

/-- Summing the mapped shares factors through the sum of the weights. -/
lemma sum_map_div_mul (l : List ℕ) (W P : ℚ) :
    (l.map (fun (w : ℕ) => ((w : ℚ) / W) * P)).sum = ((l.sum : ℚ) / W) * P := by
  induction l with
  | nil => simp
  | cons a t ih =>
      rw [List.map_cons, List.sum_cons, ih, List.sum_cons, Nat.cast_add, add_div, add_mul]

/-- With at least one player, a non-empty weight list and positive weights,
the total weight of the paying positions is positive. -/
lemma paying_weights_sum_pos (num_players : ℤ) (ws : List ℕ)
    (h2 : ws ≠ []) (h3 : ∀ w ∈ ws, 0 < w) :
    0 < (ws.take (max_paying_positions num_players ws)).sum := by
  have hk : 1 ≤ max_paying_positions num_players ws :=
    one_le_max_paying_positions num_players ws h2
  obtain ⟨w, t, rfl⟩ := List.exists_cons_of_ne_nil h2
  obtain ⟨j, hj⟩ : ∃ j, max_paying_positions num_players (w :: t) = j + 1 :=
    ⟨max_paying_positions num_players (w :: t) - 1, by omega⟩
  rw [hj, List.take_succ_cons, List.sum_cons]
  have hw : 0 < w := h3 w (by simp)
  omega

/-- Unrolling the grow loop: when the list is `k` records short of the
target, the loop appends exactly the `k` default records for positions
`length, length + 1, …, length + k - 1`. -/
lemma growPlayers_eq_append (k : ℕ) : ∀ (ps : List PlayerRecord) (num : ℕ),
    ps.length + k = num →
    growPlayers ps num = ps ++ (List.range k).map (fun j => defaultPlayer (ps.length + j)) := by
  induction k with
  | zero =>
      intro ps num h
      rw [growPlayers, if_neg (by omega)]
      simp
  | succ k ih =>
      intro ps num h
      rw [growPlayers, if_pos (by omega)]
      rw [ih (ps ++ [defaultPlayer ps.length]) num (by simp; omega)]
      rw [List.range_succ_eq_map, List.map_cons, List.map_map]
      simp only [List.append_assoc, List.singleton_append, List.length_append,
        List.length_singleton]
      have harg : (fun j => defaultPlayer (ps.length + 1 + j)) =
          ((fun j => defaultPlayer (ps.length + j)) ∘ Nat.succ) := by
        funext j
        simp only [Function.comp]
        congr 1
        omega
      rw [harg]
      simp

/-- Unrolling the shrink loop: when the list is `k` records beyond the
target, the loop pops exactly the trailing `k` records, keeping the first
`num` unchanged. -/
lemma shrinkPlayers_eq_take (k : ℕ) : ∀ (ps : List PlayerRecord) (num : ℕ),
    num + k = ps.length → shrinkPlayers ps num = ps.take num := by
  induction k with
  | zero =>
      intro ps num h
      rw [shrinkPlayers, if_neg (by omega)]
      exact (List.take_of_length_le (by omega)).symm
  | succ k ih =>
      intro ps num h
      rw [shrinkPlayers, if_pos (by omega)]
      rw [ih ps.dropLast num (by simp [List.length_dropLast]; omega)]
      rw [List.dropLast_eq_take, List.take_take]
      congr 1
      omega

/-! ## Claim theorems -/

/-- C1: for every player count ≥ 1 and non-empty list of positive weights,
the paying-position count computed by line 733,
`min(max(1, num_players // 3), len(current_weights))`, equals the spec's
`max(1, min(num_players // 3, len(current_weights)))`; it is at least 1,
never exceeds the number of weights, and is the number of payouts produced
by `calculate_payouts`. -/
theorem claim_C1_paying_position_count (num_players : ℤ)
    (buy_in food_per_player bounty_per_player : ℚ) (weights : List ℕ)
    (h1 : 1 ≤ num_players) (h2 : weights ≠ []) (h3 : ∀ w ∈ weights, 0 < w) :
    (max_paying_positions num_players weights : ℤ) =
        max 1 (min (num_players / 3) (weights.length : ℤ)) ∧
      1 ≤ max_paying_positions num_players weights ∧
      max_paying_positions num_players weights ≤ weights.length ∧
      (calculate_payouts num_players buy_in food_per_player bounty_per_player
          weights).payouts.length = max_paying_positions num_players weights := by
  have hL : 0 < weights.length := List.length_pos.mpr h2
  have hle : max_paying_positions num_players weights ≤ weights.length :=
    max_paying_positions_le_length num_players weights
  refine ⟨?_, ?_, hle, ?_⟩
  · unfold max_paying_positions
    omega
  · exact one_le_max_paying_positions num_players weights h2
  · simp only [calculate_payouts, List.length_map, List.length_take]
    omega

/-- C1 witness: the example scenario players = 9 with the default weights. -/
theorem claim_C1_paying_position_count_witness :
    ((1 : ℤ) ≤ 9 ∧ default_weights ≠ [] ∧ (∀ w ∈ default_weights, 0 < w)) ∧
      ((max_paying_positions 9 default_weights : ℤ) =
          max 1 (min ((9 : ℤ) / 3) (default_weights.length : ℤ)) ∧
        1 ≤ max_paying_positions 9 default_weights ∧
        max_paying_positions 9 default_weights ≤ default_weights.length ∧
        (calculate_payouts 9 20 5 2 default_weights).payouts.length =
          max_paying_positions 9 default_weights) :=
  ⟨⟨by decide, by decide, by decide⟩,
    claim_C1_paying_position_count 9 20 5 2 default_weights (by decide) (by decide) (by decide)⟩

/-- C10: with an empty weight list the paying-position count of line 733 is
`min(max(1, num_players // 3), 0) = 0`, `calculate_payouts` produces an
empty payout list, and (being a total function, like the source body whose
arithmetic cannot raise) it returns normally. -/
theorem claim_C10_empty_weight_list (num_players : ℤ)
    (buy_in food_per_player bounty_per_player : ℚ) :
    max_paying_positions num_players [] = 0 ∧
      (calculate_payouts num_players buy_in food_per_player bounty_per_player []).payouts = [] := by
  have h : max_paying_positions num_players [] = 0 := by
    unfold max_paying_positions
    simp
  exact ⟨h, by simp [calculate_payouts]⟩

/-- C3: after one payment-flag update (the UI writes the flag, then
`on_checkbox_change` runs), the record's `all` flag equals
`buy_in && food && bounty`; `on_all_checkbox_change` with value `v` sets
all three payment flags and `all` to `v`; neither handler changes
`eliminated` or `payed_out`. -/
theorem claim_C3_all_flag_sync (r : PlayerRecord) (f : PaymentField) (v v2 : Bool) :
    ((on_checkbox_change (setPaymentField r f v)).all =
        ((on_checkbox_change (setPaymentField r f v)).buy_in &&
          (on_checkbox_change (setPaymentField r f v)).food &&
          (on_checkbox_change (setPaymentField r f v)).bounty)) ∧
      ((on_all_checkbox_change r v2).buy_in = v2 ∧
        (on_all_checkbox_change r v2).food = v2 ∧
        (on_all_checkbox_change r v2).bounty = v2 ∧
        (on_all_checkbox_change r v2).all = v2) ∧
      ((on_checkbox_change (setPaymentField r f v)).eliminated = r.eliminated ∧
        (on_checkbox_change (setPaymentField r f v)).payed_out = r.payed_out ∧
        (on_all_checkbox_change r v2).eliminated = r.eliminated ∧
        (on_all_checkbox_change r v2).payed_out = r.payed_out) := by
  cases f <;> simp [on_checkbox_change, on_all_checkbox_change, setPaymentField]

/-- C5: `update_pool_summary` computes
`percent_paid = total_paid / total_pool * 100` exactly when
`total_pool > 0` and `0` otherwise; with all monetary values `0` the pool
is `0` and the percentage is `0` (no division by zero takes place). -/
theorem claim_C5_percent_paid (num_players : ℤ)
    (buy_in food_per_player bounty_per_player : ℚ) (player_data : List PlayerRecord) :
    ((update_pool_summary num_players buy_in food_per_player bounty_per_player
          player_data).percent_paid =
        if 0 < (update_pool_summary num_players buy_in food_per_player bounty_per_player
            player_data).total_pool then
          (update_pool_summary num_players buy_in food_per_player bounty_per_player
              player_data).total_paid /
            (update_pool_summary num_players buy_in food_per_player bounty_per_player
              player_data).total_pool * 100
        else 0) ∧
      (update_pool_summary num_players 0 0 0 player_data).total_pool = 0 ∧
      (update_pool_summary num_players 0 0 0 player_data).percent_paid = 0 := by
  refine ⟨rfl, by simp [update_pool_summary], by simp [update_pool_summary]⟩

/-- C8 counterexample: `remove_position` on the single-element list `[35]`
does not fail — the source raises no exception at all (`if len > 1:` is
simply false), so the embedded handler returns the list unchanged as an
ordinary value rather than signalling an InvalidOperation error. -/
theorem claim_C8_counterexample : remove_position [35] = [35] := by decide

/-- C8 (amended): on a single-element list `remove_position` is a silent
no-op that leaves the list unchanged (no InvalidOperation error exists in
the code); on a list with more than one element it drops exactly the last
element. -/
theorem claim_C8_remove_last (w : ℕ) (ws : List ℕ) :
    remove_position [w] = [w] ∧ (ws ≠ [] → remove_position (ws ++ [w]) = ws) := by
  constructor
  · simp [remove_position]
  · intro h
    have hlen : 1 < (ws ++ [w]).length := by
      have := List.length_pos.mpr h
      simp
      omega
    unfold remove_position
    rw [if_pos hlen, List.dropLast_concat]

/-- C8 witness: concrete singleton and two-element lists. -/
theorem claim_C8_remove_last_witness :
    remove_position [35] = [35] ∧ ([35] : List ℕ) ≠ [] ∧ remove_position [35, 20] = [35] :=
  ⟨(claim_C8_remove_last 35 []).1, by decide, (claim_C8_remove_last 20 [35]).2 (by decide)⟩

/-- C9 counterexample: `on_weight_change` with the non-positive value `0`
does not fail — the source raises no InvalidWeight error; the guard
`if new_weight > 0:` is false and the handler returns with the list
unchanged. -/
theorem claim_C9_counterexample : on_weight_change [35, 20] 0 0 = [35, 20] := by decide

/-- C9 (amended): for a value ≤ 0, `on_weight_change` silently leaves the
weight list unchanged (no InvalidWeight error exists in the code); for a
value > 0 and an in-range index it replaces exactly the element at that
index (same length, new value at the index, all other positions
untouched). -/
theorem claim_C9_weight_edit (ws : List ℕ) (index : ℕ) (v : ℤ) :
    (v ≤ 0 → on_weight_change ws index v = ws) ∧
      (0 < v → index < ws.length →
        (on_weight_change ws index v).length = ws.length ∧
          (on_weight_change ws index v)[index]? = some v.toNat ∧
          ∀ j, j ≠ index → (on_weight_change ws index v)[j]? = ws[j]?) := by
  constructor
  · intro h
    unfold on_weight_change
    rw [if_neg (by omega)]
  · intro hv hidx
    unfold on_weight_change
    rw [if_pos hv]
    refine ⟨List.length_set .., by simp [List.getElem?_set, hidx], ?_⟩
    intro j hj
    exact List.getElem?_set_ne (fun he => hj he.symm)

/-- C9 witness: rejecting `-1` leaves `[35, 20]` unchanged; setting `7` at
index 1 stores it there. -/
theorem claim_C9_weight_edit_witness :
    on_weight_change [35, 20] 0 (-1) = [35, 20] ∧
      (on_weight_change [35, 20] 1 7)[1]? = some 7 :=
  ⟨(claim_C9_weight_edit [35, 20] 0 (-1)).1 (by decide),
    ((claim_C9_weight_edit [35, 20] 1 7).2 (by decide) (by decide)).2.1⟩

/-- C2: with at least one player, a non-negative buy-in and a non-empty
list of positive weights, the payouts of `calculate_payouts` sum exactly
(in rational arithmetic, embedding the floating-point computation) to the
prize pool `num_players * buy_in`. -/
theorem claim_C2_payouts_sum_to_prize_pool (num_players : ℤ)
    (buy_in food_per_player bounty_per_player : ℚ) (weights : List ℕ)
    (h1 : 1 ≤ num_players) (hb : 0 ≤ buy_in)
    (h2 : weights ≠ []) (h3 : ∀ w ∈ weights, 0 < w) :
    (calculate_payouts num_players buy_in food_per_player bounty_per_player
          weights).payouts.sum =
        (calculate_payouts num_players buy_in food_per_player bounty_per_player
          weights).prize_pool ∧
      (calculate_payouts num_players buy_in food_per_player bounty_per_player
          weights).prize_pool = (num_players : ℚ) * buy_in := by
  have hpos : 0 < (weights.take (max_paying_positions num_players weights)).sum :=
    paying_weights_sum_pos num_players weights h2 h3
  refine ⟨?_, rfl⟩
  simp only [calculate_payouts]
  rw [if_neg (by omega), sum_map_div_mul, div_self (by exact_mod_cast hpos.ne'), one_mul]

/-- C2 witness: the example scenario players = 9, buy-in = 20 with the
default weights (payouts 90, 360/7, 270/7 summing to 180). -/
theorem claim_C2_payouts_sum_to_prize_pool_witness :
    ((1 : ℤ) ≤ 9 ∧ (0 : ℚ) ≤ 20 ∧ default_weights ≠ [] ∧ (∀ w ∈ default_weights, 0 < w)) ∧
      ((calculate_payouts 9 20 5 2 default_weights).payouts.sum =
          (calculate_payouts 9 20 5 2 default_weights).prize_pool ∧
        (calculate_payouts 9 20 5 2 default_weights).prize_pool = (9 : ℚ) * 20) :=
  ⟨⟨by norm_num, by norm_num, by decide, by decide⟩,
    claim_C2_payouts_sum_to_prize_pool 9 20 5 2 default_weights (by norm_num) (by norm_num)
      (by decide) (by decide)⟩

/-- C7: if the total weight of the paying positions is 0, the guard of
lines 739-740 substitutes 1 as the divisor (so the division is by 1, not
0) and every computed payout is `(0 / 1) * prize_pool = 0`. -/
theorem claim_C7_zero_total_weight (num_players : ℤ)
    (buy_in food_per_player bounty_per_player : ℚ) (weights : List ℕ)
    (h : (weights.take (max_paying_positions num_players weights)).sum = 0) :
    ∀ x ∈ (calculate_payouts num_players buy_in food_per_player bounty_per_player
        weights).payouts, x = 0 := by
  intro x hx
  simp only [calculate_payouts, List.mem_map] at hx
  obtain ⟨w, hw, rfl⟩ := hx
  have hw0 : w = 0 := List.sum_eq_zero_iff.mp h w hw
  simp [hw0]

/-- C7 witness: weights `[0, 5]` with 3 players select the single paying
weight 0; the sole payout is 0. -/
theorem claim_C7_zero_total_weight_witness :
    (([0, 5].take (max_paying_positions 3 [0, 5])).sum = 0) ∧
      ∀ x ∈ (calculate_payouts 3 10 0 0 [0, 5]).payouts, x = 0 :=
  ⟨by decide, claim_C7_zero_total_weight 3 10 0 0 [0, 5] (by decide)⟩

/-- C4 counterexample: at the invalid input players = 0, buy-in = −5,
food = −1, bounty = −2, empty weights, `calculate_payouts` does not fail
with an InvalidInput error — the source contains no validation (the
`try/except` only guards widget operations) — and silently produces the
all-zero result. -/
theorem claim_C4_counterexample :
    calculate_payouts 0 (-5) (-1) (-2) [] =
      { prize_pool := 0, food_pool := 0, bounty_pool := 0, total_pool := 0, payouts := [] } := by
  simp [calculate_payouts]

/-- C4 (amended): `calculate_payouts` performs no input validation: on any
input with players < 1, a negative monetary value, or an empty weight
list, it still returns a normal result with `max_paying_positions`
payouts and the usual pool formulas, rather than raising InvalidInput. -/
theorem claim_C4_no_input_validation (num_players : ℤ)
    (buy_in food_per_player bounty_per_player : ℚ) (weights : List ℕ)
    (h : num_players < 1 ∨ buy_in < 0 ∨ food_per_player < 0 ∨
      bounty_per_player < 0 ∨ weights = []) :
    (calculate_payouts num_players buy_in food_per_player bounty_per_player
          weights).payouts.length = max_paying_positions num_players weights ∧
      (calculate_payouts num_players buy_in food_per_player bounty_per_player
          weights).prize_pool = (num_players : ℚ) * buy_in ∧
      (calculate_payouts num_players buy_in food_per_player bounty_per_player
          weights).total_pool =
        (num_players : ℚ) * buy_in + (num_players : ℚ) * food_per_player +
          (num_players : ℚ) * bounty_per_player := by
  have hle : max_paying_positions num_players weights ≤ weights.length :=
    max_paying_positions_le_length num_players weights
  refine ⟨?_, rfl, rfl⟩
  simp only [calculate_payouts, List.length_map, List.length_take]
  omega

/-- C4 witness: the invalid input players = 0 with negative monetary
values and empty weights still yields a normal result. -/
theorem claim_C4_no_input_validation_witness :
    ((0 : ℤ) < 1) ∧
      ((calculate_payouts 0 (-5) (-1) (-2) []).payouts.length =
          max_paying_positions 0 [] ∧
        (calculate_payouts 0 (-5) (-1) (-2) []).prize_pool = ((0 : ℤ) : ℚ) * (-5) ∧
        (calculate_payouts 0 (-5) (-1) (-2) []).total_pool =
          ((0 : ℤ) : ℚ) * (-5) + ((0 : ℤ) : ℚ) * (-1) + ((0 : ℤ) : ℚ) * (-2)) :=
  ⟨by norm_num,
    claim_C4_no_input_validation 0 (-5) (-1) (-2) [] (Or.inl (by norm_num))⟩

/-- C6: `update_player_data` resizing the ledger to `num_players` records
keeps every record that remains unchanged: growing appends exactly the
missing default records (all flags false, name `"Player {position+1}"`)
after the untouched existing ones, and shrinking truncates to the first
`num_players` records unchanged. -/
theorem claim_C6_resize_preserves_records (ps : List PlayerRecord) (num_players : ℕ) :
    update_player_data ps num_players =
      if ps.length ≤ num_players then
        ps ++ (List.range (num_players - ps.length)).map
          (fun j => defaultPlayer (ps.length + j))
      else ps.take num_players := by
  unfold update_player_data
  by_cases h : ps.length ≤ num_players
  · rw [if_pos h, growPlayers_eq_append (num_players - ps.length) ps num_players (by omega)]
    rw [shrinkPlayers, if_neg (by simp; omega)]
  · rw [if_neg h, growPlayers, if_neg (by omega)]
    exact shrinkPlayers_eq_take (ps.length - num_players) ps num_players (by omega)

end Pay2Poker
